import Mathlib

/-!
# Verification of the booklib Collection Store

Shallow embedding of the book-collection state manager found in
`src/unnamed/part_002` (a React context provider backed by AsyncStorage).
The in-memory collection is a `List Book`; each store operation is a pure
function from the current collection (plus the inputs the source reads from
the environment: the current date string and the random source used by
`generateUUID`) to the returned record and the next collection.  Operations
that `throw` are modelled with `Except String`.

JavaScript truthiness on optional strings (`undefined` and `""` are falsy)
and on optional numbers (`undefined` and `0` are falsy) is modelled
explicitly, since the source uses `!bookToUpdate.startDate`,
`endDate || today` and `bookToUpdate.pageCount || 0`.
-/

namespace Booklib

/-- Book['status'] : 'wantToRead' | 'reading' | 'completed' (types.ts). -/
inductive Status where
  | wantToRead
  | reading
  | completed
deriving DecidableEq, Repr

/-- The Book record of types.ts.  Optional fields are `Option`; `coverImage`
is `string | null | undefined` in the source, collapsed here to `Option String`
(the store never branches on `null` vs `undefined` for it). -/
structure Book where
  id : String
  title : String
  author : String
  genre : Option String := none
  publicationDate : Option String := none
  pageCount : Option Int := none
  coverImage : Option String := none
  status : Status
  currentPage : Option Int := none
  startDate : Option String := none
  endDate : Option String := none
  isbn : Option String := none
  publisher : Option String := none
  language : Option String := none
  notes : Option String := none
  rating : Option Int := none
deriving DecidableEq, Repr

/-- BookFormData = Omit<Book, 'id'> & \x7b id?: string \x7d (types.ts). -/
structure BookFormData where
  id : Option String := none
  title : String
  author : String
  genre : Option String := none
  publicationDate : Option String := none
  pageCount : Option Int := none
  coverImage : Option String := none
  status : Status
  currentPage : Option Int := none
  startDate : Option String := none
  endDate : Option String := none
  isbn : Option String := none
  publisher : Option String := none
  language : Option String := none
  notes : Option String := none
  rating : Option Int := none
deriving DecidableEq, Repr

/-- JS truthiness of an optional string: `undefined` and `""` are falsy. -/
def strTruthy : Option String → Bool
  | none => false
  | some s => s != ""

/-- JS `x || y` where `x` is an optional string and `y` a string. -/
def strOr (x : Option String) (y : String) : String :=
  match x with
  | none => y
  | some s => if s = "" then y else s

/-- JS `x || y` where `x` is an optional number and `y` a number
(`undefined` and `0` are falsy). -/
def numOr (x : Option Int) (y : Int) : Int :=
  match x with
  | none => y
  | some n => if n = 0 then y else n

/-- Lower-case hex digit of `n` (`v.toString(16)` for `0 ≤ n < 16`). -/
def hexDigit (n : Nat) : Char :=
  if n < 10 then Char.ofNat (48 + n) else Char.ofNat (87 + n)

/-- The template string of `generateUUID`. -/
def uuidTemplate : List Char := "xxxxxxxx-xxxx-4xxx-yxxx-xxxxxxxxxxxx".toList

/-- `template.replace(/[xy]/g, c => ...)`: each `x` becomes a random hex
digit `r`, each `y` becomes `(r & 0x3 | 0x8).toString(16)`; other characters
are kept.  `rand i` models the `i`-th call of `Math.random() * 16 | 0`
(reduced mod 16 since that expression is always in `0..15`). -/
def uuidChars (cs : List Char) (i : Nat) (rand : Nat → Nat) : List Char :=
  match cs with
  | [] => []
  | c :: rest =>
    if c = 'x' then hexDigit (rand i % 16) :: uuidChars rest (i + 1) rand
    else if c = 'y' then hexDigit (((rand i % 16) &&& 0x3) ||| 0x8) :: uuidChars rest (i + 1) rand
    else c :: uuidChars rest i rand

/-- `generateUUID` of part_002, lines 82-88. -/
def generateUUID (rand : Nat → Nat) : String :=
  String.mk (uuidChars uuidTemplate 0 rand)

/-- `\x7b...bookData, id: bookData.id || generateUUID()\x7d`: the record stored by
`addBook`, with the chosen id supplied. -/
def toBook (d : BookFormData) (newId : String) : Book :=
  { id := newId, title := d.title, author := d.author, genre := d.genre,
    publicationDate := d.publicationDate, pageCount := d.pageCount,
    coverImage := d.coverImage, status := d.status,
    currentPage := d.currentPage, startDate := d.startDate,
    endDate := d.endDate, isbn := d.isbn, publisher := d.publisher,
    language := d.language, notes := d.notes, rating := d.rating }

/-- `getBook` (part_002, lines 136-138): `books.find(book => book.id === id)`. -/
def getBook (books : List Book) (id : String) : Option Book :=
  books.find? (fun book => book.id == id)

/-- `addBook` (part_002, lines 141-150): builds the new record with
`id: bookData.id || generateUUID()` and appends it; returns the stored
record and the next collection. -/
def addBook (books : List Book) (rand : Nat → Nat) (bookData : BookFormData) :
    Book × List Book :=
  let newBook : Book := toBook bookData (strOr bookData.id (generateUUID rand))
  (newBook, books ++ [newBook])

/-- `updateBook` (part_002, lines 153-160):
`books.map(book => book.id === updatedBook.id ? updatedBook : book)`. -/
def updateBook (books : List Book) (updatedBook : Book) : Book × List Book :=
  (updatedBook, books.map (fun book => if book.id == updatedBook.id then updatedBook else book))

/-- `deleteBook` (part_002, lines 163-166): `books.filter(book => book.id !== id)`. -/
def deleteBook (books : List Book) (id : String) : List Book :=
  books.filter (fun book => book.id != id)

/-- `updateBookStatus` (part_002, lines 169-194).  `today` models
`new Date().toISOString().split('T')[0]`; `endDate` is the optional third
argument.  The object literal spreads translate field-wise: `startDate` is
overridden only when the new status is `reading` and the current one is
falsy; `endDate` is overridden (to `endDate || today`) whenever the new
status is `completed`. -/
def updateBookStatus (books : List Book) (today : String) (id : String)
    (status : Status) (endDate : Option String) : Except String (Book × List Book) :=
  match books.find? (fun book => book.id == id) with
  | none => .error ("Book with id " ++ id ++ " not found")
  | some bookToUpdate =>
    let updatedBook : Book :=
      { bookToUpdate with
        status := status,
        startDate :=
          if status = Status.reading ∧ strTruthy bookToUpdate.startDate = false then
            some today
          else bookToUpdate.startDate,
        endDate :=
          if status = Status.completed then some (strOr endDate today)
          else bookToUpdate.endDate }
    .ok (updateBook books updatedBook)

/-- `updateBookProgress` (part_002, lines 197-225).  When the found book is
not in `reading` status the source first awaits `updateBookStatus(id,
'reading')`, whose `setBooks` is then superseded by the final
`updateBook`; both calls read the same closed-over `books` and both replace
every record whose id matches `id` wholesale, so threading the intermediate
collection through (as done here) yields the same final collection as the
source's stale-closure semantics.  `updatedBook` is built from the
originally found `bookToUpdate`, exactly as in the source. -/
def updateBookProgress (books : List Book) (today : String) (id : String)
    (currentPage : Int) : Except String (Book × List Book) :=
  match books.find? (fun book => book.id == id) with
  | none => .error ("Book with id " ++ id ++ " not found")
  | some bookToUpdate =>
    let books1 : List Book :=
      if bookToUpdate.status ≠ Status.reading then
        match updateBookStatus books today id Status.reading none with
        | .ok r => r.2
        | .error _ => books
      else books
    let updatedBook : Book :=
      { bookToUpdate with
        currentPage := some currentPage,
        status :=
          if currentPage ≥ numOr bookToUpdate.pageCount 0 then Status.completed
          else Status.reading,
        startDate :=
          if strTruthy bookToUpdate.startDate then bookToUpdate.startDate
          else some today,
        endDate :=
          if currentPage ≥ numOr bookToUpdate.pageCount 0 then some today
          else bookToUpdate.endDate }
    .ok (updateBook books1 updatedBook)

/-- INITIAL_BOOKS[0] (part_002, lines 7-23). -/
def gatsby : Book :=
  { id := "1", title := "The Great Gatsby", author := "F. Scott Fitzgerald",
    genre := some "Classic Fiction", publicationDate := some "1925-04-10",
    pageCount := some 180, coverImage := none, status := Status.completed,
    startDate := some "2023-01-15", endDate := some "2023-01-30",
    isbn := some "9780743273565", publisher := some "Scribner",
    language := some "English",
    notes := some "A classic American novel about wealth, love, and the American Dream in the Roaring Twenties.",
    rating := some 4 }

/-- INITIAL_BOOKS[1] (part_002, lines 24-38). -/
def mockingbird : Book :=
  { id := "2", title := "To Kill a Mockingbird", author := "Harper Lee",
    genre := some "Classic Fiction", publicationDate := some "1960-07-11",
    pageCount := some 281, coverImage := none, status := Status.reading,
    currentPage := some 120, startDate := some "2023-02-15",
    isbn := some "9780061120084",
    publisher := some "HarperPerennial Modern Classics",
    language := some "English" }

/-- INITIAL_BOOKS[2] (part_002, lines 39-51). -/
def nineteenEightyFour : Book :=
  { id := "3", title := "1984", author := "George Orwell",
    genre := some "Dystopian Fiction", publicationDate := some "1949-06-08",
    pageCount := some 328, coverImage := none, status := Status.wantToRead,
    isbn := some "9780451524935", publisher := some "Signet Classic",
    language := some "English" }

/-- The seed collection INITIAL_BOOKS (part_002, lines 6-52). -/
def INITIAL_BOOKS : List Book := [gatsby, mockingbird, nineteenEightyFour]

/-- A form submission with a caller-supplied id that collides with the seed
record of id "1". -/
def dupData : BookFormData :=
  { id := some "1", title := "Different", author := "B", status := Status.wantToRead }

/-- A record with no `pageCount`. -/
def noPages : Book :=
  { id := "9", title := "Essay", author := "A", status := Status.wantToRead }

/-- The end-to-end example of the spec: form data for Dune, no id supplied. -/
def duneData : BookFormData :=
  { title := "Dune", author := "Herbert", pageCount := some 412,
    status := Status.wantToRead }

/-- The ids of the collection are pairwise distinct. -/
def idsNodup (books : List Book) : Prop := (books.map Book.id).Nodup

/-! ## Helper lemmas -/

lemma strOr_ne_empty (x : Option String) (y : String) (hy : y ≠ "") :
    strOr x y ≠ "" := by
  cases x with
  | none => simpa [strOr] using hy
  | some s => by_cases hs : s = "" <;> simp [strOr, hs, hy]

lemma uuidChars_length (cs : List Char) (i : Nat) (rand : Nat → Nat) :
    (uuidChars cs i rand).length = cs.length := by
  induction cs generalizing i with
  | nil => rfl
  | cons c rest ih =>
    by_cases h1 : c = 'x'
    · simp [uuidChars, h1, ih]
    · by_cases h2 : c = 'y' <;> simp [uuidChars, h1, h2, ih]

lemma generateUUID_ne_empty (rand : Nat → Nat) : generateUUID rand ≠ "" := by
  intro h
  have hd : uuidChars uuidTemplate 0 rand = ([] : List Char) := congrArg String.data h
  have hl := uuidChars_length uuidTemplate 0 rand
  rw [hd] at hl
  exact absurd hl (by decide)

/-- Replacing matched records by `ub` in `updateBook` never changes the
sequence of ids (the replacement's id equals the replaced one's). -/
lemma updateBook_map_id (books : List Book) (ub : Book) :
    ((updateBook books ub).2).map Book.id = books.map Book.id := by
  simp only [updateBook, List.map_map]
  refine List.map_congr_left fun b _ => ?_
  by_cases h : b.id = ub.id
  · simp [Function.comp, h]
  · simp [Function.comp, h]

/-- If no record of `l` matches `ub.id`, `updateBook`'s map keeps `l`. -/
lemma map_update_eq_self (l : List Book) (ub : Book)
    (h : ∀ b ∈ l, b.id ≠ ub.id) :
    l.map (fun b => if b.id == ub.id then ub else b) = l := by
  conv_rhs => rw [← List.map_id l]
  refine List.map_congr_left fun b hb => ?_
  simp [h b hb]

/-- Looking up `id` after `updateBook` with a record whose id is `id`
finds the replacement, provided some record with that id existed. -/
lemma getBook_updateBook (books : List Book) (ub : Book) (id : String)
    (hid : ub.id = id) (hfind : (books.find? (fun b => b.id == id)).isSome) :
    ((updateBook books ub).2).find? (fun b => b.id == id) = some ub := by
  induction books with
  | nil => simp [List.find?] at hfind
  | cons a l ih =>
    by_cases h : a.id = id
    · simp [updateBook, List.find?_cons, h, hid]
    · have hfind2 : (l.find? (fun b => b.id == id)).isSome := by
        simpa [List.find?_cons, h] using hfind
      have := ih hfind2
      simp only [updateBook] at this ⊢
      simpa [List.map_cons, List.find?_cons, h, hid] using this

/-- Unfolding of `updateBookStatus` when the lookup succeeds. -/
lemma updateBookStatus_found (books : List Book) (today id : String) (st : Status)
    (e : Option String) (b : Book)
    (hfind : books.find? (fun x => x.id == id) = some b) :
    updateBookStatus books today id st e =
      Except.ok (updateBook books
        { b with
          status := st,
          startDate := if st = Status.reading ∧ strTruthy b.startDate = false
            then some today else b.startDate,
          endDate := if st = Status.completed then some (strOr e today)
            else b.endDate }) := by
  simp [updateBookStatus, hfind]

/-- Unfolding of `updateBookProgress` when the lookup succeeds. -/
lemma updateBookProgress_found (books : List Book) (today id : String) (cp : Int)
    (b : Book)
    (hfind : books.find? (fun x => x.id == id) = some b) :
    updateBookProgress books today id cp =
      Except.ok (updateBook
        (if b.status ≠ Status.reading then
          (match updateBookStatus books today id Status.reading none with
           | .ok r => r.2
           | .error _ => books)
         else books)
        { b with
          currentPage := some cp,
          status := if cp ≥ numOr b.pageCount 0 then Status.completed
            else Status.reading,
          startDate := if strTruthy b.startDate then b.startDate else some today,
          endDate := if cp ≥ numOr b.pageCount 0 then some today
            else b.endDate }) := by
  simp [updateBookProgress, hfind]

/-! ## Claim C3: updateStatus(id, 'reading') stamps startDate only once -/

/-- C3 (confirmed): for a record whose `startDate` is unset,
`updateStatus(id, 'reading')` sets `startDate` to today; calling it again on
the resulting collection leaves the already-set `startDate` unchanged
(today's date string being nonempty). -/
theorem updateStatus_reading_startDate_once (books : List Book)
    (today today2 id : String) (b : Book)
    (hfind : getBook books id = some b) (hstart : b.startDate = none)
    (htoday : today ≠ "") :
    ∃ b1 books1,
      updateBookStatus books today id Status.reading none = Except.ok (b1, books1) ∧
      b1.startDate = some today ∧
      ∃ b2 books2,
        updateBookStatus books1 today2 id Status.reading none = Except.ok (b2, books2) ∧
        b2.startDate = some today := by
  rw [getBook] at hfind
  have hbid : b.id = id := by
    have := List.find?_some hfind
    simpa using this
  have hsome : (books.find? (fun x => x.id == id)).isSome := by rw [hfind]; rfl
  have h1 := updateBookStatus_found books today id Status.reading none b hfind
  set ub : Book :=
    { b with
      status := Status.reading,
      startDate := if Status.reading = Status.reading ∧ strTruthy b.startDate = false
        then some today else b.startDate,
      endDate := if Status.reading = Status.completed then some (strOr none today)
        else b.endDate } with hub
  have hub1 : ub.startDate = some today := by
    rw [hub]
    simp [hstart, strTruthy]
  refine ⟨ub, (updateBook books ub).2, h1, hub1, ?_⟩
  have hfound : ((updateBook books ub).2).find? (fun x => x.id == id) = some ub :=
    getBook_updateBook books ub id (by rw [hub]; exact hbid) hsome
  have h2 := updateBookStatus_found (updateBook books ub).2 today2 id
    Status.reading none ub hfound
  refine ⟨_, _, h2, ?_⟩
  simp [hstart, strTruthy, htoday]

/-- Witness for C3 at the seed record of id "3" (no startDate). -/
theorem updateStatus_reading_startDate_once_witness :
    ∃ b1 books1,
      updateBookStatus INITIAL_BOOKS "2026-10-11" "3" Status.reading none = Except.ok (b1, books1) ∧
      b1.startDate = some "2026-10-11" ∧
      ∃ b2 books2,
        updateBookStatus books1 "2026-10-12" "3" Status.reading none = Except.ok (b2, books2) ∧
        b2.startDate = some "2026-10-11" :=
  updateStatus_reading_startDate_once INITIAL_BOOKS "2026-10-11" "2026-10-12" "3"
    nineteenEightyFour (by rfl) (by rfl) (by decide)

/-! ## Claim C1: endDate stamping on transition to 'completed' -/

/-- C1 (counterexample): the seed record of id "1" has `endDate` already set
to "2023-01-30", yet `updateStatus(1, 'completed')` without an explicit
`endDate` overwrites it with today's date — the source stamps
`endDate: endDate || today` whenever the new status is `completed`, without
checking whether `endDate` was previously set. -/
theorem updateStatus_completed_overwrites_endDate_cex :
    gatsby.endDate = some "2023-01-30" ∧
    getBook INITIAL_BOOKS "1" = some gatsby ∧
    (updateBookStatus INITIAL_BOOKS "2026-10-11" "1" Status.completed none).map
      (fun r => r.1.endDate) = Except.ok (some "2026-10-11") :=
  ⟨rfl, rfl, rfl⟩

/-- C1 (amended): transitioning a found record to 'completed' always stamps
`endDate` with the explicitly passed value when truthy and with today
otherwise, overwriting any previously set `endDate`; `startDate` is left
unchanged by the 'completed' transition. -/
theorem updateStatus_completed_sets_endDate (books : List Book) (today id : String)
    (e : Option String) (b : Book) (hfind : getBook books id = some b) :
    ∃ r, updateBookStatus books today id Status.completed e = Except.ok r ∧
      r.1.endDate = some (strOr e today) ∧
      r.1.startDate = b.startDate ∧
      r.1.status = Status.completed := by
  rw [getBook] at hfind
  have h1 := updateBookStatus_found books today id Status.completed e b hfind
  exact ⟨_, h1, by simp [updateBook], by simp [updateBook], by simp [updateBook]⟩

/-- Witness for the amended C1 at the seed record of id "1". -/
theorem updateStatus_completed_sets_endDate_witness :
    ∃ r, updateBookStatus INITIAL_BOOKS "2026-10-11" "1" Status.completed none =
        Except.ok r ∧
      r.1.endDate = some (strOr none "2026-10-11") ∧
      r.1.startDate = gatsby.startDate ∧
      r.1.status = Status.completed :=
  updateStatus_completed_sets_endDate INITIAL_BOOKS "2026-10-11" "1" none gatsby (by rfl)

/-! ## Claim C2: completion promotion threshold of updateProgress -/

/-- C2 (counterexample): for a record whose `pageCount` is unknown,
`updateProgress(id, 5)` promotes it to 'completed' and stamps `endDate` —
the source compares against `bookToUpdate.pageCount || 0`, so an unknown
`pageCount` behaves as 0 and every non-negative progress completes the
book, contradicting the claim that an unknown `pageCount` never promotes. -/
theorem updateProgress_no_pageCount_completes_cex :
    noPages.pageCount = none ∧
    (updateBookProgress [noPages] "2026-10-11" "9" 5).map
      (fun r => (r.1.status, r.1.endDate)) =
      Except.ok (Status.completed, some "2026-10-11") :=
  ⟨rfl, rfl⟩

/-- C2 (amended): `updateProgress` on a found record promotes to 'completed'
and stamps `endDate := today` exactly when `currentPage ≥ (pageCount || 0)`:
with a known `pageCount` this is the claimed `currentPage ≥ pageCount`
threshold, but with an unknown `pageCount` the threshold degenerates to 0
and every non-negative progress also promotes. -/
theorem updateProgress_completion_threshold (books : List Book) (today id : String)
    (cp : Int) (b : Book) (hfind : getBook books id = some b) :
    ∃ r, updateBookProgress books today id cp = Except.ok r ∧
      (r.1.status = if cp ≥ numOr b.pageCount 0 then Status.completed
        else Status.reading) ∧
      (r.1.endDate = if cp ≥ numOr b.pageCount 0 then some today else b.endDate) ∧
      (b.pageCount = none → 0 ≤ cp → r.1.status = Status.completed) := by
  rw [getBook] at hfind
  have h1 := updateBookProgress_found books today id cp b hfind
  refine ⟨_, h1, by simp [updateBook], by simp [updateBook], fun hpc hcp => ?_⟩
  simp [updateBook, hpc, numOr, hcp]

/-- Witness for the amended C2 at the seed record of id "2"
(`pageCount = 281`) with progress 300. -/
theorem updateProgress_completion_threshold_witness :
    ∃ r, updateBookProgress INITIAL_BOOKS "2026-10-11" "2" 300 = Except.ok r ∧
      (r.1.status = if (300 : Int) ≥ numOr mockingbird.pageCount 0 then Status.completed
        else Status.reading) ∧
      (r.1.endDate = if (300 : Int) ≥ numOr mockingbird.pageCount 0 then some "2026-10-11"
        else mockingbird.endDate) ∧
      (mockingbird.pageCount = none → (0 : Int) ≤ 300 → r.1.status = Status.completed) :=
  updateProgress_completion_threshold INITIAL_BOOKS "2026-10-11" "2" 300 mockingbird (by rfl)

/-! ## Claim C9: currentPage is stored unclamped at the reconciliation point -/

/-- C9 (counterexample): `updateProgress(2, 500)` on the seed record of id
"2" (`pageCount = 281`) stores `currentPage = 500`, exceeding `pageCount` —
the source never clamps `currentPage`, so the claimed
`currentPage ≤ pageCount` invariant fails even right after reconciliation. -/
theorem updateProgress_currentPage_exceeds_pageCount_cex :
    mockingbird.pageCount = some 281 ∧
    (updateBookProgress INITIAL_BOOKS "2026-10-11" "2" 500).map
      (fun r => (r.1.currentPage, r.1.pageCount)) = Except.ok (some 500, some 281) ∧
    ¬ ((500 : Int) ≤ 281) :=
  ⟨rfl, rfl, by decide⟩

/-- C9 (amended): after `updateProgress` on a found record, the stored
`currentPage` is exactly the argument (unclamped, so it may exceed
`pageCount`), `pageCount` is unchanged, and progress reaching or exceeding
the `pageCount || 0` threshold does force status 'completed' with `endDate`
stamped to today. -/
theorem updateProgress_reconciliation (books : List Book) (today id : String)
    (cp : Int) (b : Book) (hfind : getBook books id = some b) :
    ∃ r, updateBookProgress books today id cp = Except.ok r ∧
      r.1.currentPage = some cp ∧
      r.1.pageCount = b.pageCount ∧
      (cp ≥ numOr b.pageCount 0 →
        r.1.status = Status.completed ∧ r.1.endDate = some today) := by
  rw [getBook] at hfind
  have h1 := updateBookProgress_found books today id cp b hfind
  refine ⟨_, h1, by simp [updateBook], by simp [updateBook], fun h => ?_⟩
  constructor <;> simp [updateBook, h]

/-- Witness for the amended C9 at the seed record of id "2" with progress 500. -/
theorem updateProgress_reconciliation_witness :
    ∃ r, updateBookProgress INITIAL_BOOKS "2026-10-11" "2" 500 = Except.ok r ∧
      r.1.currentPage = some 500 ∧
      r.1.pageCount = mockingbird.pageCount ∧
      ((500 : Int) ≥ numOr mockingbird.pageCount 0 →
        r.1.status = Status.completed ∧ r.1.endDate = some "2026-10-11") :=
  updateProgress_reconciliation INITIAL_BOOKS "2026-10-11" "2" 500 mockingbird (by rfl)

/-! ## Claim C4: updateStatus/updateProgress on an absent id fail -/

/-- C4 (confirmed): when no record matches `id`, both `updateBookStatus` and
`updateBookProgress` fail with the not-found error; no updated collection is
produced (the source throws before any `setBooks`), so the collection is
unchanged. -/
theorem update_ops_not_found_error (books : List Book) (today id : String)
    (st : Status) (e : Option String) (cp : Int)
    (hnone : getBook books id = none) :
    updateBookStatus books today id st e =
      Except.error ("Book with id " ++ id ++ " not found") ∧
    updateBookProgress books today id cp =
      Except.error ("Book with id " ++ id ++ " not found") := by
  rw [getBook] at hnone
  exact ⟨by simp [updateBookStatus, hnone], by simp [updateBookProgress, hnone]⟩

/-- Witness for C4 at id "99", absent from the seed collection. -/
theorem update_ops_not_found_error_witness :
    updateBookStatus INITIAL_BOOKS "2026-10-11" "99" Status.reading none =
      Except.error ("Book with id " ++ "99" ++ " not found") ∧
    updateBookProgress INITIAL_BOOKS "2026-10-11" "99" 7 =
      Except.error ("Book with id " ++ "99" ++ " not found") :=
  update_ops_not_found_error INITIAL_BOOKS "2026-10-11" "99" Status.reading none 7 (by rfl)

/-! ## Claim C5: update on a non-existent id is a silent no-op -/

/-- C5 (confirmed): when no record matches `book.id`, `updateBook` returns
the argument and leaves the collection exactly unchanged; its return type
carries no error, so no error is signalled to the caller. -/
theorem updateBook_missing_id_noop (books : List Book) (book : Book)
    (hnone : getBook books book.id = none) :
    updateBook books book = (book, books) := by
  rw [getBook, List.find?_eq_none] at hnone
  have h : ∀ b ∈ books, b.id ≠ book.id := fun b hb => by simpa using hnone b hb
  rw [updateBook, map_update_eq_self books book h]

/-- Witness for C5: updating a record of id "9", absent from the seed
collection, changes nothing. -/
theorem updateBook_missing_id_noop_witness :
    updateBook INITIAL_BOOKS noPages = (noPages, INITIAL_BOOKS) :=
  updateBook_missing_id_noop INITIAL_BOOKS noPages (by rfl)

/-! ## Claim C6: delete removes the record and shrinks the collection -/

/-- If no record of `l` matches `id`, the delete filter keeps everything. -/
lemma filter_ne_eq_self (l : List Book) (id : String)
    (h : ∀ b ∈ l, b.id ≠ id) : l.filter (fun b => b.id != id) = l := by
  rw [List.filter_eq_self]
  intro b hb
  simpa using h b hb

lemma deleteBook_length (books : List Book) (id : String)
    (hnd : idsNodup books)
    (hfind : (books.find? (fun b => b.id == id)).isSome) :
    (deleteBook books id).length + 1 = books.length := by
  induction books with
  | nil => simp [List.find?] at hfind
  | cons a l ih =>
    rw [idsNodup, List.map_cons, List.nodup_cons] at hnd
    by_cases h : a.id = id
    · have htail : ∀ x ∈ l, x.id ≠ id := by
        intro x hx hxid
        exact hnd.1 (List.mem_map.mpr ⟨x, hx, hxid.trans h.symm⟩)
      simp [deleteBook, List.filter_cons, h, filter_ne_eq_self l id htail]
    · have hfind2 : (l.find? (fun b => b.id == id)).isSome := by
        simpa [List.find?_cons, h] using hfind
      have hl := ih hnd.2 hfind2
      simp only [deleteBook] at hl ⊢
      simp [List.filter_cons, h]
      omega

/-- C6 (confirmed): for a collection with pairwise-distinct ids (the
collection invariant) containing a record of the given id, `deleteBook`
followed by `getBook` returns absent, and the collection shrinks by exactly
one record. -/
theorem deleteBook_removes_and_shrinks (books : List Book) (id : String) (b : Book)
    (hnd : idsNodup books) (hfind : getBook books id = some b) :
    getBook (deleteBook books id) id = none ∧
    (deleteBook books id).length + 1 = books.length := by
  rw [getBook] at hfind
  constructor
  · rw [getBook, List.find?_eq_none]
    intro x hx
    have := (List.mem_filter.mp hx).2
    simpa using this
  · exact deleteBook_length books id hnd (by rw [hfind]; rfl)

/-- Witness for C6 at the seed record of id "2". -/
theorem deleteBook_removes_and_shrinks_witness :
    getBook (deleteBook INITIAL_BOOKS "2") "2" = none ∧
    (deleteBook INITIAL_BOOKS "2").length + 1 = INITIAL_BOOKS.length :=
  deleteBook_removes_and_shrinks INITIAL_BOOKS "2" mockingbird
    (by unfold idsNodup; decide) (by rfl)

/-! ## Claim C7: add then get round-trips -/

/-- Appending a record whose id is absent makes it findable. -/
lemma getBook_append_fresh (books : List Book) (nb : Book)
    (h : getBook books nb.id = none) :
    getBook (books ++ [nb]) nb.id = some nb := by
  rw [getBook] at h ⊢
  rw [List.find?_append, h]
  simp [List.find?]

/-- C7 (counterexample): adding form data that carries the already-present
id "1" returns a record with id "1", but `getBook` afterwards still returns
the pre-existing seed record, not the record that was just added — `addBook`
appends without checking the caller-supplied id and `getBook` returns the
first match. -/
theorem addBook_duplicate_id_get_cex :
    (addBook INITIAL_BOOKS (fun _ => 0) dupData).1.id = "1" ∧
    getBook (addBook INITIAL_BOOKS (fun _ => 0) dupData).2 "1" = some gatsby ∧
    gatsby ≠ (addBook INITIAL_BOOKS (fun _ => 0) dupData).1 :=
  ⟨rfl, rfl, by decide⟩

/-- C7 (amended): the record returned by `addBook` always has a populated
(nonempty) id — the caller-supplied id when truthy, a generated UUID
otherwise — and equals the submitted form data with that id; provided the
stored id does not collide with a record already in the collection,
`getBook` on it afterwards returns exactly the added record. -/
theorem addBook_fresh_roundtrip (books : List Book) (rand : Nat → Nat)
    (d : BookFormData)
    (hfresh : getBook books (strOr d.id (generateUUID rand)) = none) :
    (addBook books rand d).1.id ≠ "" ∧
    (addBook books rand d).1 = toBook d ((addBook books rand d).1.id) ∧
    getBook (addBook books rand d).2 ((addBook books rand d).1.id) =
      some (addBook books rand d).1 := by
  refine ⟨?_, rfl, ?_⟩
  · exact strOr_ne_empty d.id (generateUUID rand) (generateUUID_ne_empty rand)
  · exact getBook_append_fresh books (toBook d (strOr d.id (generateUUID rand))) hfresh

/-- Witness for the amended C7: adding Dune (no caller-supplied id) to the
seed collection with a fixed random source. -/
theorem addBook_fresh_roundtrip_witness :
    (addBook INITIAL_BOOKS (fun _ => 0) duneData).1.id ≠ "" ∧
    (addBook INITIAL_BOOKS (fun _ => 0) duneData).1 =
      toBook duneData ((addBook INITIAL_BOOKS (fun _ => 0) duneData).1.id) ∧
    getBook (addBook INITIAL_BOOKS (fun _ => 0) duneData).2
        ((addBook INITIAL_BOOKS (fun _ => 0) duneData).1.id) =
      some (addBook INITIAL_BOOKS (fun _ => 0) duneData).1 :=
  addBook_fresh_roundtrip INITIAL_BOOKS (fun _ => 0) duneData (by rfl)

/-! ## Claim C8: id uniqueness as a collection invariant -/

/-- `updateBookStatus` never changes the sequence of ids when it succeeds. -/
lemma updateBookStatus_ok_ids (books : List Book) (today id : String) (st : Status)
    (e : Option String) (r : Book × List Book)
    (h : updateBookStatus books today id st e = Except.ok r) :
    r.2.map Book.id = books.map Book.id := by
  cases hfind : books.find? (fun x => x.id == id) with
  | none => simp [updateBookStatus, hfind] at h
  | some b =>
    rw [updateBookStatus_found books today id st e b hfind] at h
    injection h with h2
    subst h2
    exact updateBook_map_id books _

/-- `updateBookProgress` never changes the sequence of ids when it succeeds. -/
lemma updateBookProgress_ok_ids (books : List Book) (today id : String) (cp : Int)
    (r : Book × List Book)
    (h : updateBookProgress books today id cp = Except.ok r) :
    r.2.map Book.id = books.map Book.id := by
  cases hfind : books.find? (fun x => x.id == id) with
  | none => simp [updateBookProgress, hfind] at h
  | some b =>
    rw [updateBookProgress_found books today id cp b hfind] at h
    injection h with h2
    subst h2
    rw [updateBook_map_id]
    by_cases hst : b.status ≠ Status.reading
    · rw [if_pos hst]
      cases hs : updateBookStatus books today id Status.reading none with
      | ok r2 => exact updateBookStatus_ok_ids books today id Status.reading none r2 hs
      | error msg => rfl
    · rw [if_neg hst]

/-- C8 (counterexample): `addBook` accepts a caller-supplied id without a
uniqueness check, so adding form data reusing the seed id "1" breaks the
pairwise-distinct-ids invariant. -/
theorem addBook_duplicate_id_breaks_nodup_cex :
    idsNodup INITIAL_BOOKS ∧
    ¬ idsNodup (addBook INITIAL_BOOKS (fun _ => 0) dupData).2 :=
  ⟨by unfold idsNodup; decide, by unfold idsNodup; decide⟩

/-- C8 (amended): starting from a collection with pairwise-distinct ids,
`updateBook`, `deleteBook` and every successful `updateBookStatus` /
`updateBookProgress` preserve distinctness; `addBook` preserves it provided
the stored id (caller-supplied or generated) does not already occur in the
collection — with a colliding caller-supplied id the invariant breaks. -/
theorem store_ops_preserve_idsNodup (books : List Book) (hnd : idsNodup books) :
    (∀ ub : Book, idsNodup (updateBook books ub).2) ∧
    (∀ id : String, idsNodup (deleteBook books id)) ∧
    (∀ (today id : String) (st : Status) (e : Option String) (r : Book × List Book),
      updateBookStatus books today id st e = Except.ok r → idsNodup r.2) ∧
    (∀ (today id : String) (cp : Int) (r : Book × List Book),
      updateBookProgress books today id cp = Except.ok r → idsNodup r.2) ∧
    (∀ (rand : Nat → Nat) (d : BookFormData),
      getBook books (strOr d.id (generateUUID rand)) = none →
      idsNodup (addBook books rand d).2) := by
  refine ⟨fun ub => ?_, fun id => ?_, fun today id st e r h => ?_,
    fun today id cp r h => ?_, fun rand d hfresh => ?_⟩
  · rw [idsNodup, updateBook_map_id]
    exact hnd
  · rw [idsNodup]
    exact List.Nodup.sublist (List.Sublist.map Book.id (List.filter_sublist books)) hnd
  · rw [idsNodup, updateBookStatus_ok_ids books today id st e r h]
    exact hnd
  · rw [idsNodup, updateBookProgress_ok_ids books today id cp r h]
    exact hnd
  · show ((books ++ [toBook d (strOr d.id (generateUUID rand))]).map Book.id).Nodup
    rw [List.map_append, List.nodup_append]
    rw [getBook, List.find?_eq_none] at hfresh
    refine ⟨hnd, List.nodup_singleton _, ?_⟩
    intro x hx hx2
    rw [List.map_singleton, List.mem_singleton] at hx2
    obtain ⟨b, hb, rfl⟩ := List.mem_map.mp hx
    have hneq : b.id ≠ strOr d.id (generateUUID rand) := by simpa using hfresh b hb
    exact hneq hx2

/-- Witness for the amended C8: updating the seed record of id "1" keeps
the ids pairwise distinct. -/
theorem store_ops_preserve_idsNodup_witness :
    idsNodup (updateBook INITIAL_BOOKS gatsby).2 :=
  (store_ops_preserve_idsNodup INITIAL_BOOKS (by unfold idsNodup; decide)).1 gatsby

/-! ## Claim C10: frame conditions of add and update -/

/-- Under distinct ids, `updateBook` with a matching record rewrites the
collection at exactly the matching position. -/
lemma updateBook_eq_set (books : List Book) (ub : Book) :
    idsNodup books → (books.find? (fun x => x.id == ub.id)).isSome →
    ∃ i, ∃ hi : i < books.length, (books.get ⟨i, hi⟩).id = ub.id ∧
      (updateBook books ub).2 = books.set i ub := by
  induction books with
  | nil => intro _ hfind; simp [List.find?] at hfind
  | cons a l ih =>
    intro hnd hfind
    rw [idsNodup, List.map_cons, List.nodup_cons] at hnd
    by_cases h : a.id = ub.id
    · have htail : ∀ x ∈ l, x.id ≠ ub.id := by
        intro x hx hxid
        exact hnd.1 (List.mem_map.mpr ⟨x, hx, hxid.trans h.symm⟩)
      refine ⟨0, ?_, ?_, ?_⟩
      · simp
      · simpa using h
      · show ((a :: l).map fun b => if b.id == ub.id then ub else b) = (a :: l).set 0 ub
        rw [List.map_cons, map_update_eq_self l ub htail, List.set_cons_zero]
        simp [h]
    · have hfind2 : (l.find? (fun x => x.id == ub.id)).isSome := by
        simpa [List.find?_cons, h] using hfind
      obtain ⟨i, hi, hgi, hset⟩ := ih hnd.2 hfind2
      refine ⟨i + 1, ?_, ?_, ?_⟩
      · simpa using hi
      · simpa using hgi
      · show ((a :: l).map fun b => if b.id == ub.id then ub else b) = (a :: l).set (i + 1) ub
        rw [List.map_cons, List.set_cons_succ]
        simp only [updateBook] at hset
        rw [hset]
        simp [h]

/-- C10 (confirmed): `addBook` appends exactly one record at the end,
leaving every pre-existing record and their order unchanged; for a record
whose id matches one of a collection with pairwise-distinct ids,
`updateBook` rewrites exactly the matching position (`List.set`), which
preserves the length and the order and content of every other record. -/
theorem addBook_updateBook_frame (books : List Book) (rand : Nat → Nat)
    (d : BookFormData) (ub : Book) (hnd : idsNodup books)
    (hfind : (books.find? (fun x => x.id == ub.id)).isSome) :
    (addBook books rand d).2 = books ++ [(addBook books rand d).1] ∧
    ∃ i, ∃ hi : i < books.length, (books.get ⟨i, hi⟩).id = ub.id ∧
      (updateBook books ub).2 = books.set i ub :=
  ⟨rfl, updateBook_eq_set books ub hnd hfind⟩

/-- Witness for C10 at the seed collection, updating the record of id "1". -/
theorem addBook_updateBook_frame_witness :
    (addBook INITIAL_BOOKS (fun _ => 0) duneData).2 =
      INITIAL_BOOKS ++ [(addBook INITIAL_BOOKS (fun _ => 0) duneData).1] ∧
    ∃ i, ∃ hi : i < INITIAL_BOOKS.length,
      (INITIAL_BOOKS.get ⟨i, hi⟩).id = gatsby.id ∧
      (updateBook INITIAL_BOOKS gatsby).2 = INITIAL_BOOKS.set i gatsby :=
  addBook_updateBook_frame INITIAL_BOOKS (fun _ => 0) duneData gatsby
    (by unfold idsNodup; decide) (by rfl)

end Booklib
